import Mathlib

/-!
Verification of the ubisys LD6 output-configuration codec, catalog, deriver and
converters, shallowly embedded from the repository sources:
  * `src/unnamed/part_000`  (namespace `Part000`)
  * `src/ubisys_ld6.mjs`    (namespace `Ld6`)
JavaScript numbers are modelled by exact rationals (`ℚ`); `Math.round` becomes
`jsRound`; bytes are `Nat` with explicit `% 256` wherever the JS code coerces
through `Buffer`.  JS `undefined` arising from out-of-bounds reads is modelled
with `Option`/dedicated sentinels at the places the code can produce it.
-/

/-- JS `Math.round`: round half toward positive infinity. -/
def jsRound (q : ℚ) : ℤ := ⌊q + 1/2⌋

/-- One named entry of the `OUTPUT_CONFIGURATIONS` catalog object in
`src/unnamed/part_000` (key, `description`, `endpoints`, `data`). -/
structure CatalogEntry where
  name : String
  description : String
  endpoints : List Nat
  data : List (List Nat)
  deriving DecidableEq, Repr

namespace Part000

/-- The `OUTPUT_CONFIGURATIONS` object of `src/unnamed/part_000`, in
definition order (JS object-literal key order). -/
def OUTPUT_CONFIGURATIONS : List CatalogEntry := [
  { name := "1x_dimmable",
    description := "1x Dimmable (mono) - Single channel white",
    endpoints := [1],
    data := [
      [0x10, 0xff, 0xff, 0xff, 0xff, 0xff],
      [0x00, 0xff, 0xff, 0xff, 0xff, 0xff],
      [0x00, 0xff, 0xff, 0xff, 0xff, 0xff],
      [0x00, 0xff, 0xff, 0xff, 0xff, 0xff],
      [0x00, 0xff, 0xff, 0xff, 0xff, 0xff],
      [0x00, 0xff, 0xff, 0xff, 0xff, 0xff]] },
  { name := "1x_cct",
    description := "1x CCT / Tunable White (Cool/Warm) - 2 channel",
    endpoints := [1],
    data := [
      [0x11, 0xfe, 0x42, 0x50, 0xd9, 0x52],
      [0x12, 0xfe, 0xb9, 0x75, 0x1d, 0x69],
      [0x00, 0xff, 0xff, 0xff, 0xff, 0xff],
      [0x00, 0xff, 0xff, 0xff, 0xff, 0xff],
      [0x00, 0xff, 0xff, 0xff, 0xff, 0xff],
      [0x00, 0xff, 0xff, 0xff, 0xff, 0xff]] },
  { name := "1x_rgb",
    description := "1x RGB Color - 3 channel",
    endpoints := [1],
    data := [
      [0x13, 0x47, 0x06, 0xb1, 0xef, 0x4e],
      [0x14, 0xa0, 0x39, 0x1d, 0x82, 0xd3],
      [0x15, 0x42, 0xc6, 0x1f, 0xcc, 0x0e],
      [0x00, 0xff, 0xff, 0xff, 0xff, 0xff],
      [0x00, 0xff, 0xff, 0xff, 0xff, 0xff],
      [0x00, 0xff, 0xff, 0xff, 0xff, 0xff]] },
  { name := "1x_rgbw",
    description := "1x RGBW (RGB + neutral White) - 4 channel",
    endpoints := [1],
    data := [
      [0x13, 0x47, 0x06, 0xb1, 0xef, 0x4e],
      [0x14, 0xa0, 0x39, 0x1d, 0x82, 0xd3],
      [0x15, 0x42, 0xc6, 0x1f, 0xcc, 0x0e],
      [0x11, 0xfe, 0x64, 0x61, 0x72, 0x60],
      [0x00, 0xff, 0xff, 0xff, 0xff, 0xff],
      [0x00, 0xff, 0xff, 0xff, 0xff, 0xff]] },
  { name := "1x_rgbww",
    description := "1x RGBWW (RGB + Cool/Warm White) - 5 channel",
    endpoints := [1],
    data := [
      [0x13, 0x47, 0x06, 0xb1, 0xef, 0x4e],
      [0x14, 0xa0, 0x39, 0x1d, 0x82, 0xd3],
      [0x15, 0x42, 0xc6, 0x1f, 0xcc, 0x0e],
      [0x11, 0xfe, 0x42, 0x50, 0xd9, 0x52],
      [0x12, 0xfe, 0xb9, 0x75, 0x1d, 0x69],
      [0x00, 0xff, 0xff, 0xff, 0xff, 0xff]] },
  { name := "1x_extended_gamut",
    description := "1x Extended Color Gamut (R/A/G/T/B/V) - 6 channel",
    endpoints := [1],
    data := [
      [0x13, 0x45, 0x86, 0xb1, 0xef, 0x4e],
      [0x16, 0xc6, 0x59, 0x9a, 0x80, 0x65],
      [0x14, 0xfe, 0x39, 0x1d, 0x82, 0xd3],
      [0x17, 0xb4, 0x9e, 0x0b, 0x83, 0x4b],
      [0x15, 0x4d, 0xc6, 0x1f, 0xcc, 0x0e],
      [0x18, 0x6c, 0x2d, 0x2c, 0x3a, 0x01]] },
  { name := "2x_dimmable",
    description := "2x Dimmable (mono) - 2 independent white channels",
    endpoints := [1, 5],
    data := [
      [0x10, 0xff, 0xff, 0xff, 0xff, 0xff],
      [0x50, 0xff, 0xff, 0xff, 0xff, 0xff],
      [0x00, 0xff, 0xff, 0xff, 0xff, 0xff],
      [0x00, 0xff, 0xff, 0xff, 0xff, 0xff],
      [0x00, 0xff, 0xff, 0xff, 0xff, 0xff],
      [0x00, 0xff, 0xff, 0xff, 0xff, 0xff]] },
  { name := "2x_cct",
    description := "2x CCT / Tunable White - 2 independent CCT lights",
    endpoints := [1, 5],
    data := [
      [0x11, 0xfe, 0x42, 0x50, 0xd9, 0x52],
      [0x12, 0xfe, 0xb9, 0x75, 0x1d, 0x69],
      [0x51, 0xfe, 0x42, 0x50, 0xd9, 0x52],
      [0x52, 0xfe, 0xb9, 0x75, 0x1d, 0x69],
      [0x00, 0xff, 0xff, 0xff, 0xff, 0xff],
      [0x00, 0xff, 0xff, 0xff, 0xff, 0xff]] },
  { name := "1x_rgb_1x_cct",
    description := "1x RGB + 1x CCT - Color + Tunable White",
    endpoints := [1, 5],
    data := [
      [0x13, 0x47, 0x06, 0xb1, 0xef, 0x4e],
      [0x14, 0xa0, 0x39, 0x1d, 0x82, 0xd3],
      [0x15, 0x42, 0xc6, 0x1f, 0xcc, 0x0e],
      [0x00, 0xff, 0xff, 0xff, 0xff, 0xff],
      [0x51, 0xfe, 0x42, 0x50, 0xd9, 0x52],
      [0x52, 0xfe, 0xb9, 0x75, 0x1d, 0x69]] },
  { name := "1x_rgbw_1x_cct",
    description := "1x RGBW + 1x CCT",
    endpoints := [1, 5],
    data := [
      [0x13, 0x47, 0x06, 0xb1, 0xef, 0x4e],
      [0x14, 0xa0, 0x39, 0x1d, 0x82, 0xd3],
      [0x15, 0x42, 0xc6, 0x1f, 0xcc, 0x0e],
      [0x11, 0xfe, 0x64, 0x61, 0x72, 0x60],
      [0x51, 0xfe, 0x42, 0x50, 0xd9, 0x52],
      [0x52, 0xfe, 0xb9, 0x75, 0x1d, 0x69]] },
  { name := "2x_rgb",
    description := "2x RGB Color - 2 independent color lights",
    endpoints := [1, 5],
    data := [
      [0x13, 0x47, 0x06, 0xb1, 0xef, 0x4e],
      [0x14, 0xa0, 0x39, 0x1d, 0x82, 0xd3],
      [0x15, 0x42, 0xc6, 0x1f, 0xcc, 0x0e],
      [0x53, 0x47, 0x06, 0xb1, 0xef, 0x4e],
      [0x54, 0xa0, 0x39, 0x1d, 0x82, 0xd3],
      [0x55, 0x42, 0xc6, 0x1f, 0xcc, 0x0e]] },
  { name := "3x_dimmable",
    description := "3x Dimmable (mono)",
    endpoints := [1, 5, 6],
    data := [
      [0x10, 0xff, 0xff, 0xff, 0xff, 0xff],
      [0x50, 0xff, 0xff, 0xff, 0xff, 0xff],
      [0x60, 0xff, 0xff, 0xff, 0xff, 0xff],
      [0x00, 0xff, 0xff, 0xff, 0xff, 0xff],
      [0x00, 0xff, 0xff, 0xff, 0xff, 0xff],
      [0x00, 0xff, 0xff, 0xff, 0xff, 0xff]] },
  { name := "3x_cct",
    description := "3x CCT / Tunable White",
    endpoints := [1, 5, 6],
    data := [
      [0x11, 0xfe, 0x42, 0x50, 0xd9, 0x52],
      [0x12, 0xfe, 0xb9, 0x75, 0x1d, 0x69],
      [0x51, 0xfe, 0x42, 0x50, 0xd9, 0x52],
      [0x52, 0xfe, 0xb9, 0x75, 0x1d, 0x69],
      [0x61, 0xfe, 0x42, 0x50, 0xd9, 0x52],
      [0x62, 0xfe, 0xb9, 0x75, 0x1d, 0x69]] },
  { name := "4x_dimmable",
    description := "4x Dimmable (mono)",
    endpoints := [1, 5, 6, 7],
    data := [
      [0x10, 0xff, 0xff, 0xff, 0xff, 0xff],
      [0x50, 0xff, 0xff, 0xff, 0xff, 0xff],
      [0x60, 0xff, 0xff, 0xff, 0xff, 0xff],
      [0x70, 0xff, 0xff, 0xff, 0xff, 0xff],
      [0x00, 0xff, 0xff, 0xff, 0xff, 0xff],
      [0x00, 0xff, 0xff, 0xff, 0xff, 0xff]] },
  { name := "5x_dimmable",
    description := "5x Dimmable (mono)",
    endpoints := [1, 5, 6, 7, 8],
    data := [
      [0x10, 0xff, 0xff, 0xff, 0xff, 0xff],
      [0x50, 0xff, 0xff, 0xff, 0xff, 0xff],
      [0x60, 0xff, 0xff, 0xff, 0xff, 0xff],
      [0x70, 0xff, 0xff, 0xff, 0xff, 0xff],
      [0x80, 0xff, 0xff, 0xff, 0xff, 0xff],
      [0x00, 0xff, 0xff, 0xff, 0xff, 0xff]] },
  { name := "6x_dimmable",
    description := "6x Dimmable (mono)",
    endpoints := [1, 5, 6, 7, 8, 9],
    data := [
      [0x10, 0xff, 0xff, 0xff, 0xff, 0xff],
      [0x50, 0xff, 0xff, 0xff, 0xff, 0xff],
      [0x60, 0xff, 0xff, 0xff, 0xff, 0xff],
      [0x70, 0xff, 0xff, 0xff, 0xff, 0xff],
      [0x80, 0xff, 0xff, 0xff, 0xff, 0xff],
      [0x90, 0xff, 0xff, 0xff, 0xff, 0xff]] }]

/-- `buildOutputConfigPayload` of `src/unnamed/part_000` (lines 243-253):
array header `0x48 0x41 0x06 0x00` followed by each element as
`[el.length, ...el]`.  The element count bytes are hard-coded to 6
regardless of `data.length`, and there is no validation of any kind. -/
def buildOutputConfigPayload (data : List (List Nat)) : List Nat :=
  [0x48, 0x41, 0x06, 0x00] ++ (data.map (fun el => el.length :: el)).flatten

/-- The JS value stored in a decoded channel's `flux` field: the string
sentinel `'default'` (raw byte `0xff`), a number, or `undefined` when the
read `data[offset + 2]` was out of bounds. -/
inductive FluxVal where
  | default
  | num (n : Nat)
  | undef
  deriving DecidableEq, Repr

/-- One element of `result.channels` pushed by `parseOutputConfig`
(`src/unnamed/part_000` lines 282-287).  `endpoint` is `none` for the JS
`null` produced when the high nibble is 0 (the two arms of the inner JS
conditional both return `endpoint`, so it is the identity otherwise). -/
structure Channel where
  channel : Nat
  endpoint : Option Nat
  function : String
  flux : FluxVal
  deriving DecidableEq, Repr

/-- The `funcNames` table of `parseOutputConfig` (line 279). -/
def funcNames : List String := ["M", "CW", "WW", "R", "G", "B", "A", "T", "V", "F"]

/-- The channel object built for one element starting at `offset`
(`i` is the 0-based loop counter).  Out-of-bounds reads follow JS semantics:
`data[offset+1]` feeds bitwise operators, where `undefined` coerces to 0;
`data[offset+2]` is compared with `=== 0xff` (false for `undefined`) and then
stored raw, which `FluxVal.undef` records. -/
def mkChannel (data : List Nat) (offset i : Nat) : Channel :=
  let epFunc := data.getD (offset + 1) 0
  let endpoint := (epFunc >>> 4) &&& 0x0F
  let func := epFunc &&& 0x0F
  let funcName := funcNames.getD func "unknown"
  { channel := i + 1
    endpoint := if endpoint = 0 then none else some endpoint
    function := if func = 0 ∧ endpoint = 0 then "unused" else funcName
    flux := match data.get? (offset + 2) with
            | none => FluxVal.undef
            | some v => if v = 0xff then FluxVal.default else FluxVal.num v }

/-- The element-walking loop of `parseOutputConfig` (lines 269-290).
The fuel counts the remaining iterations of `for (let i = 0; i < 6; i++)`;
`i` is the loop counter. The two `break` conditions are translated verbatim:
`offset >= data.length` and `offset + len > data.length`. -/
def parseChannels (data : List Nat) : Nat → Nat → Nat → List Channel
  | _, _, 0 => []
  | offset, i, fuel + 1 =>
    if data.length ≤ offset then []
    else
      let len := data.getD offset 0
      if data.length < offset + len then []
      else mkChannel data offset i :: parseChannels data (offset + len + 1) (i + 1) fuel

/-- One lowercase hex digit. -/
def hexChar (n : Nat) : Char := if n < 10 then Char.ofNat (48 + n) else Char.ofNat (87 + n)

/-- Two-digit lowercase hex of a byte, after the mod-256 coercion that
`Buffer.from` applies to each array entry. -/
def byteToHex (b : Nat) : String := String.mk [hexChar (b % 256 / 16), hexChar (b % 16)]

/-- `Buffer.from(data).toString('hex')` (line 264). -/
def toHexString (data : List Nat) : String := String.join (data.map byteToHex)

/-- The catalog-identification loop of `parseOutputConfig` (lines 293-305):
first catalog entry whose canonical payload is byte-identical
(`Buffer.compare === 0`, after `Buffer.from` coerces `data` mod 256) wins,
else the `'custom'` sentinel.  Returns `(mode, description)`. -/
def identifyMode (data : List Nat) : String × String :=
  match OUTPUT_CONFIGURATIONS.find?
      (fun entry => data.map (fun b => b % 256) = buildOutputConfigPayload entry.data) with
  | some entry => (entry.name, entry.description)
  | none => ("custom", "Custom configuration")

/-- The `result` object of `parseOutputConfig`. -/
structure ParseResult where
  channels : List Channel
  raw : String
  mode : String
  description : String
  deriving DecidableEq, Repr

/-- `parseOutputConfig` of `src/unnamed/part_000` (lines 258-308).  The JS
`return null` for missing/short input is `none`. -/
def parseOutputConfig (data : List Nat) : Option ParseResult :=
  if data.length < 4 then none
  else
    let idm := identifyMode data
    some { channels := parseChannels data 4 0 6
           raw := toHexString data
           mode := idm.1
           description := idm.2 }

/-- The `output_mode` branch of `tzOutputConfiguration.convertSet`
(`src/unnamed/part_000` lines 419-456): unknown names throw before any
device interaction; a known name writes the entry's 6 channel elements.
`Except.error` carries the JS `Error` message, `Except.ok` the elements
passed to `writeStructured`. -/
def tzSetOutputMode (value : String) : Except String (List (List Nat)) :=
  match OUTPUT_CONFIGURATIONS.find? (fun entry => entry.name = value) with
  | none =>
      Except.error ("Unknown output mode: " ++ value ++ ". Available modes: "
        ++ String.intercalate ", " (OUTPUT_CONFIGURATIONS.map CatalogEntry.name))
  | some config => Except.ok config.data

end Part000

namespace Ld6

/-- One entry of the `OUTPUT_CONFIGURATIONS` object in `src/ubisys_ld6.mjs`
(key, `description`, `data`; this revision has no `endpoints` field). -/
structure Entry where
  name : String
  description : String
  data : List (List Nat)
  deriving DecidableEq, Repr

/-- The `OUTPUT_CONFIGURATIONS` object of `src/ubisys_ld6.mjs` (lines 19-35),
in definition order. -/
def OUTPUT_CONFIGURATIONS : List Entry := [
  { name := "1x_dimmable", description := "1x Dimmable (mono)", data := [
      [0x10, 0xff, 0xff, 0xff, 0xff, 0xff], [0x00, 0xff, 0xff, 0xff, 0xff, 0xff],
      [0x00, 0xff, 0xff, 0xff, 0xff, 0xff], [0x00, 0xff, 0xff, 0xff, 0xff, 0xff],
      [0x00, 0xff, 0xff, 0xff, 0xff, 0xff], [0x00, 0xff, 0xff, 0xff, 0xff, 0xff]] },
  { name := "1x_cct", description := "1x CCT / Tunable White", data := [
      [0x11, 0xfe, 0x42, 0x50, 0xd9, 0x52], [0x12, 0xfe, 0xb9, 0x75, 0x1d, 0x69],
      [0x00, 0xff, 0xff, 0xff, 0xff, 0xff], [0x00, 0xff, 0xff, 0xff, 0xff, 0xff],
      [0x00, 0xff, 0xff, 0xff, 0xff, 0xff], [0x00, 0xff, 0xff, 0xff, 0xff, 0xff]] },
  { name := "1x_rgb", description := "1x RGB Color", data := [
      [0x13, 0x47, 0x06, 0xb1, 0xef, 0x4e], [0x14, 0xa0, 0x39, 0x1d, 0x82, 0xd3],
      [0x15, 0x42, 0xc6, 0x1f, 0xcc, 0x0e], [0x00, 0xff, 0xff, 0xff, 0xff, 0xff],
      [0x00, 0xff, 0xff, 0xff, 0xff, 0xff], [0x00, 0xff, 0xff, 0xff, 0xff, 0xff]] },
  { name := "1x_rgbw", description := "1x RGBW", data := [
      [0x13, 0x47, 0x06, 0xb1, 0xef, 0x4e], [0x14, 0xa0, 0x39, 0x1d, 0x82, 0xd3],
      [0x15, 0x42, 0xc6, 0x1f, 0xcc, 0x0e], [0x11, 0xfe, 0x64, 0x61, 0x72, 0x60],
      [0x00, 0xff, 0xff, 0xff, 0xff, 0xff], [0x00, 0xff, 0xff, 0xff, 0xff, 0xff]] },
  { name := "1x_rgbww", description := "1x RGBWW", data := [
      [0x13, 0x47, 0x06, 0xb1, 0xef, 0x4e], [0x14, 0xa0, 0x39, 0x1d, 0x82, 0xd3],
      [0x15, 0x42, 0xc6, 0x1f, 0xcc, 0x0e], [0x11, 0xfe, 0x42, 0x50, 0xd9, 0x52],
      [0x12, 0xfe, 0xb9, 0x75, 0x1d, 0x69], [0x00, 0xff, 0xff, 0xff, 0xff, 0xff]] },
  { name := "2x_dimmable", description := "2x Dimmable (mono)", data := [
      [0x10, 0xff, 0xff, 0xff, 0xff, 0xff], [0x50, 0xff, 0xff, 0xff, 0xff, 0xff],
      [0x00, 0xff, 0xff, 0xff, 0xff, 0xff], [0x00, 0xff, 0xff, 0xff, 0xff, 0xff],
      [0x00, 0xff, 0xff, 0xff, 0xff, 0xff], [0x00, 0xff, 0xff, 0xff, 0xff, 0xff]] },
  { name := "2x_cct", description := "2x CCT / Tunable White", data := [
      [0x11, 0xfe, 0x42, 0x50, 0xd9, 0x52], [0x12, 0xfe, 0xb9, 0x75, 0x1d, 0x69],
      [0x51, 0xfe, 0x42, 0x50, 0xd9, 0x52], [0x52, 0xfe, 0xb9, 0x75, 0x1d, 0x69],
      [0x00, 0xff, 0xff, 0xff, 0xff, 0xff], [0x00, 0xff, 0xff, 0xff, 0xff, 0xff]] },
  { name := "1x_rgb_1x_cct", description := "1x RGB + 1x CCT", data := [
      [0x13, 0x47, 0x06, 0xb1, 0xef, 0x4e], [0x14, 0xa0, 0x39, 0x1d, 0x82, 0xd3],
      [0x15, 0x42, 0xc6, 0x1f, 0xcc, 0x0e], [0x51, 0xfe, 0x42, 0x50, 0xd9, 0x52],
      [0x52, 0xfe, 0xb9, 0x75, 0x1d, 0x69], [0x00, 0xff, 0xff, 0xff, 0xff, 0xff]] },
  { name := "1x_cct_1x_rgb", description := "1x CCT + 1x RGB", data := [
      [0x11, 0xfe, 0x42, 0x50, 0xd9, 0x52], [0x12, 0xfe, 0xb9, 0x75, 0x1d, 0x69],
      [0x53, 0x47, 0x06, 0xb1, 0xef, 0x4e], [0x54, 0xa0, 0x39, 0x1d, 0x82, 0xd3],
      [0x55, 0x42, 0xc6, 0x1f, 0xcc, 0x0e], [0x00, 0xff, 0xff, 0xff, 0xff, 0xff]] },
  { name := "2x_rgb", description := "2x RGB Color", data := [
      [0x13, 0x47, 0x06, 0xb1, 0xef, 0x4e], [0x14, 0xa0, 0x39, 0x1d, 0x82, 0xd3],
      [0x15, 0x42, 0xc6, 0x1f, 0xcc, 0x0e], [0x53, 0x47, 0x06, 0xb1, 0xef, 0x4e],
      [0x54, 0xa0, 0x39, 0x1d, 0x82, 0xd3], [0x55, 0x42, 0xc6, 0x1f, 0xcc, 0x0e]] },
  { name := "1x_rgbw_1x_cct", description := "1x RGBW + 1x CCT", data := [
      [0x13, 0x47, 0x06, 0xb1, 0xef, 0x4e], [0x14, 0xa0, 0x39, 0x1d, 0x82, 0xd3],
      [0x15, 0x42, 0xc6, 0x1f, 0xcc, 0x0e], [0x11, 0xfe, 0x64, 0x61, 0x72, 0x60],
      [0x51, 0xfe, 0x42, 0x50, 0xd9, 0x52], [0x52, 0xfe, 0xb9, 0x75, 0x1d, 0x69]] },
  { name := "3x_dimmable", description := "3x Dimmable (mono)", data := [
      [0x10, 0xff, 0xff, 0xff, 0xff, 0xff], [0x50, 0xff, 0xff, 0xff, 0xff, 0xff],
      [0x60, 0xff, 0xff, 0xff, 0xff, 0xff], [0x00, 0xff, 0xff, 0xff, 0xff, 0xff],
      [0x00, 0xff, 0xff, 0xff, 0xff, 0xff], [0x00, 0xff, 0xff, 0xff, 0xff, 0xff]] },
  { name := "4x_dimmable", description := "4x Dimmable (mono)", data := [
      [0x10, 0xff, 0xff, 0xff, 0xff, 0xff], [0x50, 0xff, 0xff, 0xff, 0xff, 0xff],
      [0x60, 0xff, 0xff, 0xff, 0xff, 0xff], [0x70, 0xff, 0xff, 0xff, 0xff, 0xff],
      [0x00, 0xff, 0xff, 0xff, 0xff, 0xff], [0x00, 0xff, 0xff, 0xff, 0xff, 0xff]] },
  { name := "5x_dimmable", description := "5x Dimmable (mono)", data := [
      [0x10, 0xff, 0xff, 0xff, 0xff, 0xff], [0x50, 0xff, 0xff, 0xff, 0xff, 0xff],
      [0x60, 0xff, 0xff, 0xff, 0xff, 0xff], [0x70, 0xff, 0xff, 0xff, 0xff, 0xff],
      [0x80, 0xff, 0xff, 0xff, 0xff, 0xff], [0x00, 0xff, 0xff, 0xff, 0xff, 0xff]] },
  { name := "6x_dimmable", description := "6x Dimmable (mono)", data := [
      [0x10, 0xff, 0xff, 0xff, 0xff, 0xff], [0x50, 0xff, 0xff, 0xff, 0xff, 0xff],
      [0x60, 0xff, 0xff, 0xff, 0xff, 0xff], [0x70, 0xff, 0xff, 0xff, 0xff, 0xff],
      [0x80, 0xff, 0xff, 0xff, 0xff, 0xff], [0x90, 0xff, 0xff, 0xff, 0xff, 0xff]] }]

/-- `tzOutputConfiguration.convertSet` of `src/ubisys_ld6.mjs` (lines 50-60):
an unknown mode throws `Unknown mode: value` (no list of valid names) before
any write; a known mode writes the entry's channel elements. -/
def tzSetOutputMode (value : String) : Except String (List (List Nat)) :=
  match OUTPUT_CONFIGURATIONS.find? (fun entry => entry.name = value) with
  | none => Except.error ("Unknown mode: " ++ value)
  | some config => Except.ok config.data

/-- `xyToMireds` of `src/ubisys_ld6.mjs` (lines 68-72), McCamy's formula,
with JS doubles modelled by exact rationals. -/
def xyToMireds (x y : ℚ) : ℤ :=
  let n := (x - 332/1000) / (1858/10000 - y)
  let cct := 449 * n ^ 3 + 3525 * n ^ 2 + (68233/10) * n + 552033/100
  jsRound (1000000 / cct)

/-- Reading byte `i` of `Buffer.from(buf)`: entries are coerced mod 256,
and an out-of-bounds read feeds bitwise/arithmetic operators where JS
`undefined` coerces to 0. -/
def bufGet (buf : List Nat) (i : Nat) : Nat := buf.getD i 0 % 256

/-- `(el[2] | (el[3] << 8)) / 65536` (line 405). -/
def channelX (el : List Nat) : ℚ := ((bufGet el 2 ||| (bufGet el 3 <<< 8) : Nat) : ℚ) / 65536

/-- `(el[4] | (el[5] << 8)) / 65536` (line 406). -/
def channelY (el : List Nat) : ℚ := ((bufGet el 4 ||| (bufGet el 5 <<< 8) : Nat) : ℚ) / 65536

/-- One iteration of the `outputConfigs.forEach` scan in `exposes`
(lines 399-411): state is the pair `(cwMireds, wwMireds)`; a matching
coolWhite (function code 1) or warmWhite (code 2) channel on the target
endpoint overwrites the corresponding component. -/
def scanStep (epNum : Nat) (acc : Option ℤ × Option ℤ) (buf : List Nat) :
    Option ℤ × Option ℤ :=
  let epFunc := bufGet buf 0
  let channelEp := (epFunc >>> 4) &&& 0x0F
  let func := epFunc &&& 0x0F
  if channelEp = epNum then
    let mireds := xyToMireds (channelX buf) (channelY buf)
    let acc1 := if func = 1 then (some mireds, acc.2) else acc
    if func = 2 then (acc1.1, some mireds) else acc1
  else acc

/-- The dynamic CCT-range derivation of `exposes` in `src/ubisys_ld6.mjs`
(lines 394-415): scan all channels for the endpoint's cool/warm white pair;
`if (cwMireds && wwMireds)` (JS truthiness: present and nonzero) selects
`[min, max]`, otherwise the initial `range = [153, 500]` stands. -/
def deriveCctRange (outputConfigs : List (List Nat)) (epNum : Nat) : ℤ × ℤ :=
  match outputConfigs.foldl (scanStep epNum) (none, none) with
  | (some cw, some ww) =>
      if cw ≠ 0 ∧ ww ≠ 0 then (min cw ww, max cw ww) else (153, 500)
  | (_, _) => (153, 500)

/-- The `bitMapping` array of the advanced-options `convertSet`
(`src/ubisys_ld6.mjs` lines 259-265). -/
def ADVANCED_BIT_MAPPING : List String :=
  ["advanced_options_no_color_white",
   "advanced_options_no_first_white_color",
   "advanced_options_no_second_white_color",
   "advanced_options_ignore_color_temp_range",
   "advanced_options_constant_luminous_flux"]

/-- The `bitMapping.forEach` loop of `resolveAdvancedOptions`
(lines 108-115), indexed: `val` is the new value for the key being set and
`state[mappedKey] || false` for every other key. -/
def resolveGo (state : String → Option Bool) (key : String) (value : Bool) :
    List String → Nat → Nat → Nat
  | [], _, mask => mask
  | mappedKey :: rest, index, mask =>
    let val := if key = mappedKey then value else (state mappedKey).getD false
    resolveGo state key value rest (index + 1)
      (if val then mask ||| (1 <<< index) else mask)

/-- `resolveAdvancedOptions` of `src/ubisys_ld6.mjs` (lines 108-115). -/
def resolveAdvancedOptions (state : String → Option Bool) (key : String)
    (value : Bool) (bitMapping : List String) : Nat :=
  resolveGo state key value bitMapping 0 0

/-- The calibration patch `{channel, x?, y?, flux?}` minus the channel. -/
structure CalPatch where
  flux : Option Nat
  x : Option ℚ
  y : Option ℚ
  deriving Repr

/-- The per-element body of the calibration `convertSet` for the target
channel (`src/ubisys_ld6.mjs` lines 329-339, identically
`src/unnamed/part_000` lines 767-779): overwrite `el[1]` with the flux and
`el[2..5]` with `Math.round(v * 65536)` split little-endian.  Buffer writes
coerce the stored value mod 256 (`& 0xFF` in the source for x/y, `ToUint8`
for the flux) and are no-ops out of bounds; `>> 8` is floor division. -/
def applyCal (el : List Nat) (cal : CalPatch) : List Nat :=
  let el1 := match cal.flux with
    | some f => el.set 1 (f % 256)
    | none => el
  let el2 := match cal.x with
    | some vx =>
      let x := jsRound (vx * 65536)
      (el1.set 2 ((x.emod 256).toNat)).set 3 (((x.fdiv 256).emod 256).toNat)
    | none => el1
  match cal.y with
  | some vy =>
    let y := jsRound (vy * 65536)
    (el2.set 4 ((y.emod 256).toNat)).set 5 (((y.fdiv 256).emod 256).toNat)
  | none => el2

/-- `array.map((el, i) => ...)` with explicit start index. -/
def mapWithIndex (f : Nat → List Nat → List Nat) : Nat → List (List Nat) → List (List Nat)
  | _, [] => []
  | i, el :: rest => f i el :: mapWithIndex f (i + 1) rest

/-- The `resp.outputConfigurations.map((buf, i) => ...)` of the calibration
`convertSet` (lines 326-342): only the element at index `channel - 1` is
patched; every other element is the byte-for-byte copy `Buffer.from(buf)`. -/
def patchChannels (elements : List (List Nat)) (channel : Nat) (cal : CalPatch) :
    List (List Nat) :=
  mapWithIndex (fun i el => if i = channel - 1 then applyCal el cal else el) 0 elements

end Ld6

/-! ## Helper lemmas -/

/-- Mapping the `Buffer.from` byte coercion over data that is already
byte-valued is the identity. -/
theorem map_mod256_eq_self (data : List Nat) (hb : ∀ b ∈ data, b < 256) :
    data.map (fun b => b % 256) = data := by
  induction data with
  | nil => rfl
  | cons a l ih =>
    simp only [List.map_cons, List.cons.injEq]
    exact ⟨Nat.mod_eq_of_lt (hb a (by simp)), ih (fun b h => hb b (by simp [h]))⟩

/-- Summing `length + 1` over a list of lists. -/
theorem sum_map_length_succ (data : List (List Nat)) :
    ((data.map (fun el => el.length :: el)).map List.length).sum
      = data.length + (data.map List.length).sum := by
  induction data with
  | nil => rfl
  | cons a l ih =>
    simp only [List.map_cons, List.sum_cons, List.length_cons]
    rw [ih]
    omega

/-! ## C1 -/

/-- C1: for every catalog entry of `src/unnamed/part_000`, identifying the
canonical encoding of its channel data yields that entry's mode name, and
any byte-valued buffer (long enough to decode) that differs from every
canonical encoding identifies as the sentinel "custom". -/
theorem c1_identify_canonical :
    (∀ entry ∈ Part000.OUTPUT_CONFIGURATIONS,
        (Part000.parseOutputConfig (Part000.buildOutputConfigPayload entry.data)).map
          Part000.ParseResult.mode = some entry.name) ∧
    ∀ data : List Nat, 4 ≤ data.length → (∀ b ∈ data, b < 256) →
      (∀ entry ∈ Part000.OUTPUT_CONFIGURATIONS,
          data ≠ Part000.buildOutputConfigPayload entry.data) →
      (Part000.parseOutputConfig data).map Part000.ParseResult.mode = some "custom" := by
  constructor
  · decide
  · intro data h4 hb hne
    have hfind : Part000.OUTPUT_CONFIGURATIONS.find?
        (fun entry => data.map (fun b => b % 256)
          = Part000.buildOutputConfigPayload entry.data) = none := by
      rw [List.find?_eq_none]
      intro entry hmem
      simp only [decide_eq_true_eq, map_mod256_eq_self data hb]
      exact hne entry hmem
    simp [Part000.parseOutputConfig, Nat.not_lt_of_le h4, Part000.identifyMode, hfind]

/-- C1 witness: a concrete 5-byte buffer matching no canonical encoding
identifies as "custom". -/
theorem c1_identify_canonical_witness :
    (Part000.parseOutputConfig [0x48, 0x41, 0x06, 0x00, 0x00]).map
      Part000.ParseResult.mode = some "custom" :=
  c1_identify_canonical.2 [0x48, 0x41, 0x06, 0x00, 0x00] (by decide) (by decide) (by decide)

/-! ## C3 -/

/-- The function-name mapping of the amended C3 claim, written directly from
the claim text: split the byte into nibbles; code 0 with endpoint 0 is
"unused"; codes 1-8 follow the named table; code 9 is "F" (not "unknown");
only codes 10-15 are "unknown". -/
def specFunctionName (epFunc : Nat) : String :=
  let ep := (epFunc >>> 4) &&& 0x0F
  match epFunc &&& 0x0F with
  | 0 => if ep = 0 then "unused" else "M"
  | 1 => "CW"
  | 2 => "WW"
  | 3 => "R"
  | 4 => "G"
  | 5 => "B"
  | 6 => "A"
  | 7 => "T"
  | 8 => "V"
  | 9 => "F"
  | _ => "unknown"

set_option maxRecDepth 20000 in
/-- C3 (amended): for every possible `packedEndpointFunction` byte, decoding
a single-element buffer holding it produces exactly the function name of the
amended table `specFunctionName` (code 9 decodes to "F", codes 10-15 to
"unknown", code 0 with endpoint 0 to "unused"). -/
theorem c3_function_decoding : ∀ b, b < 256 →
    (Part000.parseOutputConfig [0x48, 0x41, 0x06, 0x00, 3, b, 0xff, 0xff]).map
      (fun r => r.channels.map Part000.Channel.function) = some [specFunctionName b] := by
  decide

/-- C3 witness: byte 0x25 (endpoint 2, function code 5) decodes to "B". -/
theorem c3_function_decoding_witness :
    (Part000.parseOutputConfig [0x48, 0x41, 0x06, 0x00, 3, 0x25, 0xff, 0xff]).map
      (fun r => r.channels.map Part000.Channel.function) = some [specFunctionName 0x25] :=
  c3_function_decoding 0x25 (by decide)

/-- C3 counterexample: the reserved function code 9 decodes to the table
entry "F", not to the "unknown" tag the claim requires. -/
theorem c3_counterexample :
    (Part000.parseOutputConfig [0x48, 0x41, 0x06, 0x00, 3, 0x09, 0xff, 0xff]).map
      (fun r => r.channels.map Part000.Channel.function) = some ["F"]
    ∧ "F" ≠ "unknown" := by
  decide

/-! ## C7 -/

/-- C7 counterexample: `buildOutputConfigPayload` applied to only 5 channel
descriptors does not fail: it returns a 39-byte buffer whose header still
declares 6 elements. -/
theorem c7_counterexample :
    Part000.buildOutputConfigPayload
      [[0x10, 0xff, 0xff, 0xff, 0xff, 0xff], [0x00, 0xff, 0xff, 0xff, 0xff, 0xff],
       [0x00, 0xff, 0xff, 0xff, 0xff, 0xff], [0x00, 0xff, 0xff, 0xff, 0xff, 0xff],
       [0x00, 0xff, 0xff, 0xff, 0xff, 0xff]]
    = [0x48, 0x41, 0x06, 0x00,
       6, 0x10, 0xff, 0xff, 0xff, 0xff, 0xff,
       6, 0x00, 0xff, 0xff, 0xff, 0xff, 0xff,
       6, 0x00, 0xff, 0xff, 0xff, 0xff, 0xff,
       6, 0x00, 0xff, 0xff, 0xff, 0xff, 0xff,
       6, 0x00, 0xff, 0xff, 0xff, 0xff, 0xff] := by
  decide

/-- C7 (amended): `buildOutputConfigPayload` performs no channel-count
validation and cannot fail: for every descriptor list it emits the constant
4-byte header (count bytes hard-coded to 6) followed by the descriptors, so
its length is `4 + n + Σ descriptor lengths` for an n-descriptor input
instead of an `InvalidChannelCountError`. -/
theorem c7_no_count_validation (data : List (List Nat)) :
    (Part000.buildOutputConfigPayload data).take 4 = [0x48, 0x41, 0x06, 0x00] ∧
    (Part000.buildOutputConfigPayload data).length
      = 4 + data.length + (data.map List.length).sum := by
  constructor
  · rfl
  · simp only [Part000.buildOutputConfigPayload, List.length_append, List.length_flatten,
      List.length_cons, List.length_nil]
    rw [sum_map_length_succ data]
    omega

/-- C7 amended witness: a 7-descriptor input yields a 53-byte buffer. -/
theorem c7_no_count_validation_witness :
    (Part000.buildOutputConfigPayload
      [[0x10, 0xff, 0xff, 0xff, 0xff, 0xff], [0x00, 0xff, 0xff, 0xff, 0xff, 0xff],
       [0x00, 0xff, 0xff, 0xff, 0xff, 0xff], [0x00, 0xff, 0xff, 0xff, 0xff, 0xff],
       [0x00, 0xff, 0xff, 0xff, 0xff, 0xff], [0x00, 0xff, 0xff, 0xff, 0xff, 0xff],
       [0x00, 0xff, 0xff, 0xff, 0xff, 0xff]]).length = 53 := by
  rw [(c7_no_count_validation _).2]
  decide

/-! ## C8 -/

/-- C8: `parseOutputConfig` signals failure (the JS `return null`) for every
buffer shorter than the 4 header bytes, and succeeds with 0 decoded channels
on a buffer holding exactly the 4-byte header. -/
theorem c8_decode_short_buffer :
    (∀ data : List Nat, data.length < 4 → Part000.parseOutputConfig data = none) ∧
    (Part000.parseOutputConfig [0x48, 0x41, 0x06, 0x00]).map
      (fun r => r.channels) = some [] := by
  constructor
  · intro data h
    simp [Part000.parseOutputConfig, h]
  · decide

/-- C8 witness: the 3-byte truncation of the header fails to decode. -/
theorem c8_decode_short_buffer_witness :
    Part000.parseOutputConfig [0x48, 0x41, 0x06] = none :=
  c8_decode_short_buffer.1 [0x48, 0x41, 0x06] (by decide)

/-! ## C9 -/

/-- The `flux` field of a decoded channel, by definition. -/
theorem mkChannel_flux (data : List Nat) (offset i : Nat) :
    (Part000.mkChannel data offset i).flux
      = match data.get? (offset + 2) with
        | none => Part000.FluxVal.undef
        | some v => if v = 0xff then Part000.FluxVal.default else Part000.FluxVal.num v := rfl

/-- The element loop produces at most as many channels as it has fuel. -/
theorem parseChannels_length_le (data : List Nat) :
    ∀ fuel offset i, (Part000.parseChannels data offset i fuel).length ≤ fuel := by
  intro fuel
  induction fuel with
  | zero => intro _ _; simp [Part000.parseChannels]
  | succ n ih =>
    intro offset i
    simp only [Part000.parseChannels]
    split
    · simp
    · split
      · simp
      · simpa using ih _ _

/-- Every non-`undef` flux value produced by the element loop is a byte of
the input buffer (`undef` marks the reads that fell outside it). -/
theorem parseChannels_flux_mem (data : List Nat) :
    ∀ fuel offset i, ∀ ch ∈ Part000.parseChannels data offset i fuel,
      (∀ v, ch.flux = Part000.FluxVal.num v → v ∈ data) ∧
      (ch.flux = Part000.FluxVal.default → 255 ∈ data) := by
  intro fuel
  induction fuel with
  | zero => intro offset i ch h; simp [Part000.parseChannels] at h
  | succ n ih =>
    intro offset i ch h
    simp only [Part000.parseChannels] at h
    split at h
    · simp at h
    · split at h
      · simp at h
      · rcases List.mem_cons.mp h with h1 | h2
        · subst h1
          rw [mkChannel_flux]
          cases hq : data.get? (offset + 2) with
          | none => simp
          | some w =>
            by_cases hw : w = 0xff
            · subst hw
              simp only [if_pos rfl]
              exact ⟨(fun v hv => nomatch hv), fun _ => List.get?_mem hq⟩
            · simp only [if_neg hw]
              refine ⟨fun v hv => ?_, (fun hv => nomatch hv)⟩
              cases hv
              exact List.get?_mem hq
        · exact ih _ _ ch h2

/-- C9 (amended): decoding any buffer with at least the 4 header bytes never
fails (no exception: the result is always `some`), yields at most 6 channels
(a partial result on truncation), and every flux value other than the
`undefined` marker was read from a byte of the buffer; the `undefined` marker
records the out-of-bounds reads that the boundary case of the guard
(`offset + len = data.length` with `len < 3`) lets through. -/
theorem c9_partial_decode :
    (∀ data : List Nat, 4 ≤ data.length → Part000.parseOutputConfig data ≠ none) ∧
    (∀ data : List Nat, ∀ r, Part000.parseOutputConfig data = some r →
      r.channels.length ≤ 6 ∧
      ∀ ch ∈ r.channels,
        (∀ v, ch.flux = Part000.FluxVal.num v → v ∈ data) ∧
        (ch.flux = Part000.FluxVal.default → 255 ∈ data)) := by
  constructor
  · intro data h
    simp [Part000.parseOutputConfig, Nat.not_lt_of_le h]
  · intro data r hr
    by_cases h4 : data.length < 4
    · simp [Part000.parseOutputConfig, h4] at hr
    · simp only [Part000.parseOutputConfig, if_neg h4, Option.some.injEq] at hr
      subst hr
      exact ⟨parseChannels_length_le data 6 4 0, parseChannels_flux_mem data 6 4 0⟩

/-- C9 witness: decoding a malformed 6-byte buffer does not fail. -/
theorem c9_partial_decode_witness :
    Part000.parseOutputConfig [0x48, 0x41, 0x06, 0x00, 2, 0xAA] ≠ none :=
  c9_partial_decode.1 [0x48, 0x41, 0x06, 0x00, 2, 0xAA] (by decide)

/-- C9 counterexample: for the buffer `48 41 06 00 02 aa` the length guard
accepts the element (its declared end `offset + len = 6` equals the buffer
length), and the returned channel's flux field is the out-of-bounds read
`data[6]` (JS `undefined`), so this channel is not decoded entirely from
bytes inside the buffer as the claim requires. -/
theorem c9_counterexample :
    (Part000.parseOutputConfig [0x48, 0x41, 0x06, 0x00, 2, 0xAA]).map
        (fun r => r.channels)
      = some [{ channel := 1, endpoint := some 10, function := "unknown",
                flux := Part000.FluxVal.undef }] := by
  decide

/-! ## C4 -/

/-- Pointwise description of the indexed map underlying `patchChannels`. -/
theorem mapWithIndex_getElem? (f : Nat → List Nat → List Nat) :
    ∀ (l : List (List Nat)) (n i : Nat),
      (Ld6.mapWithIndex f n l)[i]? = (l[i]?).map (f (n + i)) := by
  intro l
  induction l with
  | nil => intro n i; simp [Ld6.mapWithIndex]
  | cons a t ih =>
    intro n i
    cases i with
    | zero => simp [Ld6.mapWithIndex]
    | succ k =>
      simp only [Ld6.mapWithIndex, List.getElem?_cons_succ]
      rw [ih (n + 1) k]
      have h : n + 1 + k = n + (k + 1) := by omega
      rw [h]

/-- `applyCal` never touches byte 0 and touches a field's bytes only when
that field is present in the patch. -/
theorem applyCal_untouched (el : List Nat) (cal : Ld6.CalPatch) :
    (Ld6.applyCal el cal)[0]? = el[0]? ∧
    (cal.flux = none → (Ld6.applyCal el cal)[1]? = el[1]?) ∧
    (cal.x = none → (Ld6.applyCal el cal)[2]? = el[2]? ∧ (Ld6.applyCal el cal)[3]? = el[3]?) ∧
    (cal.y = none → (Ld6.applyCal el cal)[4]? = el[4]? ∧ (Ld6.applyCal el cal)[5]? = el[5]?) := by
  obtain ⟨cf, cx, cy⟩ := cal
  cases cf <;> cases cx <;> cases cy <;>
    simp [Ld6.applyCal, List.getElem?_set_ne]

/-- C4: patching one channel of a 6-element configuration leaves the other
five elements untouched (`getElem?`-identical), replaces the target element
by `applyCal` of the old element, and inside the target `applyCal` preserves
the `endpointAndFunction` byte 0 and every byte of a field absent from the
patch. -/
theorem c4_patch_isolation (elements : List (List Nat)) (cal : Ld6.CalPatch) (ch : Nat)
    (h1 : 1 ≤ ch) (h6 : ch ≤ 6) (hlen : elements.length = 6) :
    (∀ i, i < 6 → i ≠ ch - 1 → (Ld6.patchChannels elements ch cal)[i]? = elements[i]?) ∧
    ((Ld6.patchChannels elements ch cal)[ch - 1]?
        = (elements[ch - 1]?).map (fun el => Ld6.applyCal el cal)) ∧
    (∀ el : List Nat,
      (Ld6.applyCal el cal)[0]? = el[0]? ∧
      (cal.flux = none → (Ld6.applyCal el cal)[1]? = el[1]?) ∧
      (cal.x = none →
        (Ld6.applyCal el cal)[2]? = el[2]? ∧ (Ld6.applyCal el cal)[3]? = el[3]?) ∧
      (cal.y = none →
        (Ld6.applyCal el cal)[4]? = el[4]? ∧ (Ld6.applyCal el cal)[5]? = el[5]?)) := by
  refine ⟨?_, ?_, fun el => applyCal_untouched el cal⟩
  · intro i _ hne
    rw [Ld6.patchChannels, mapWithIndex_getElem?, Nat.zero_add]
    cases elements[i]? with
    | none => rfl
    | some el => simp [if_neg hne]
  · rw [Ld6.patchChannels, mapWithIndex_getElem?, Nat.zero_add]
    cases elements[ch - 1]? with
    | none => rfl
    | some el => simp

/-- C4 witness: patching flux of channel 3 in the canonical `2x_cct`
configuration leaves channel 1 untouched. -/
theorem c4_patch_isolation_witness :
    (Ld6.patchChannels
      [[0x11, 0xfe, 0x42, 0x50, 0xd9, 0x52], [0x12, 0xfe, 0xb9, 0x75, 0x1d, 0x69],
       [0x51, 0xfe, 0x42, 0x50, 0xd9, 0x52], [0x52, 0xfe, 0xb9, 0x75, 0x1d, 0x69],
       [0x00, 0xff, 0xff, 0xff, 0xff, 0xff], [0x00, 0xff, 0xff, 0xff, 0xff, 0xff]]
      3 { flux := some 200, x := none, y := none })[0]?
    = ([[0x11, 0xfe, 0x42, 0x50, 0xd9, 0x52], [0x12, 0xfe, 0xb9, 0x75, 0x1d, 0x69],
        [0x51, 0xfe, 0x42, 0x50, 0xd9, 0x52], [0x52, 0xfe, 0xb9, 0x75, 0x1d, 0x69],
        [0x00, 0xff, 0xff, 0xff, 0xff, 0xff], [0x00, 0xff, 0xff, 0xff, 0xff, 0xff]]
       : List (List Nat))[0]? :=
  (c4_patch_isolation _ { flux := some 200, x := none, y := none } 3
    (by decide) (by decide) (by decide)).1 0 (by decide) (by decide)

/-! ## C5 -/

/-- Whether `needle` occurs at the very start of `hay`. -/
def leadsWith : List Char → List Char → Bool
  | [], _ => true
  | _ :: _, [] => false
  | a :: as, b :: bs => a == b && leadsWith as bs

/-- Whether `needle` occurs contiguously anywhere in `hay`. -/
def containsSeg : List Char → List Char → Bool
  | [], needle => needle.isEmpty
  | c :: t, needle => leadsWith needle (c :: t) || containsSeg t needle

/-- A segment of the right part of an append is a segment of the whole. -/
theorem containsSeg_append_of (a : List Char) {b needle : List Char}
    (h : containsSeg b needle = true) : containsSeg (a ++ b) needle = true := by
  induction a with
  | nil => simpa using h
  | cons c t ih =>
    simp only [List.cons_append, containsSeg, Bool.or_eq_true]
    exact Or.inr ih

/-- C5 (amended): setting an unknown `output_mode` performs no device write
in either converter revision (`convertSet` throws first), but only the
`part_000` revision's error message lists every valid catalog mode name;
`src/ubisys_ld6.mjs` reports only `Unknown mode: value`. -/
theorem c5_unknown_mode_error :
    (∀ value : String,
      (∀ entry ∈ Part000.OUTPUT_CONFIGURATIONS, entry.name ≠ value) →
      Part000.tzSetOutputMode value
        = Except.error ("Unknown output mode: " ++ value ++ ". Available modes: "
            ++ String.intercalate ", " (Part000.OUTPUT_CONFIGURATIONS.map CatalogEntry.name))
      ∧ ∀ entry ∈ Part000.OUTPUT_CONFIGURATIONS,
          containsSeg ("Unknown output mode: " ++ value ++ ". Available modes: "
            ++ String.intercalate ", "
                (Part000.OUTPUT_CONFIGURATIONS.map CatalogEntry.name)).data
            entry.name.data = true) ∧
    (∀ value : String,
      (∀ entry ∈ Ld6.OUTPUT_CONFIGURATIONS, entry.name ≠ value) →
      Ld6.tzSetOutputMode value = Except.error ("Unknown mode: " ++ value)) := by
  constructor
  · intro value hne
    constructor
    · rw [Part000.tzSetOutputMode]
      rw [List.find?_eq_none.mpr]
      intro entry hmem
      simpa using hne entry hmem
    · intro entry hmem
      simp only [String.data_append]
      apply containsSeg_append_of
      revert entry hmem
      decide
  · intro value hne
    rw [Ld6.tzSetOutputMode]
    rw [List.find?_eq_none.mpr]
    intro entry hmem
    simpa using hne entry hmem

/-- C5 witness: the `part_000` converter rejects "nonexistent_mode" with the
full list of valid modes in the message. -/
theorem c5_unknown_mode_error_witness :
    Part000.tzSetOutputMode "nonexistent_mode"
      = Except.error ("Unknown output mode: " ++ "nonexistent_mode"
          ++ ". Available modes: "
          ++ String.intercalate ", " (Part000.OUTPUT_CONFIGURATIONS.map CatalogEntry.name)) :=
  (c5_unknown_mode_error.1 "nonexistent_mode" (by decide)).1

/-- C5 counterexample: in `src/ubisys_ld6.mjs` the error thrown for an
unknown mode does not contain the valid catalog name "1x_dimmable"
(nor any other), refuting the claim that the message lists every valid
mode name. -/
theorem c5_counterexample :
    Ld6.tzSetOutputMode "nonexistent_mode"
        = Except.error "Unknown mode: nonexistent_mode"
    ∧ "1x_dimmable" ∈ Ld6.OUTPUT_CONFIGURATIONS.map Ld6.Entry.name
    ∧ containsSeg "Unknown mode: nonexistent_mode".data "1x_dimmable".data = false := by
  refine ⟨?_, by decide, by decide⟩
  rfl

/-! ## C6 -/

/-- Characterizing `jsRound` by the bracketing inequalities. -/
theorem jsRound_eq_of (q : ℚ) (m : ℤ) (h1 : (m : ℚ) ≤ q + 1/2)
    (h2 : q + 1/2 < (m : ℚ) + 1) : jsRound q = m := by
  rw [jsRound]
  exact Int.floor_eq_iff.mpr ⟨h1, h2⟩

/-- Reassembling a 16-bit value from its low byte and its shifted high part
(the `el[2] | (el[3] << 8)` read) recovers the value. -/
theorem lor_bytes_eq (n : Nat) : (n % 256) ||| ((n / 256) <<< 8) = n := by
  apply Nat.eq_of_testBit_eq
  intro i
  rw [Nat.testBit_or, Nat.testBit_shiftLeft]
  rcases Nat.lt_or_ge i 8 with h | h
  · have hlow : (n % 256).testBit i = n.testBit i := by
      rw [show (256 : ℕ) = 2 ^ 8 from rfl, Nat.testBit_mod_two_pow]
      simp [h]
    have hhigh : decide (8 ≤ i) = false := by
      simp
      omega
    rw [hlow, hhigh]
    simp
  · have hlow : (n % 256).testBit i = false := by
      rw [show (256 : ℕ) = 2 ^ 8 from rfl, Nat.testBit_mod_two_pow]
      have : ¬ i < 8 := by omega
      simp [this]
    have hhigh : (n / 256).testBit (i - 8) = n.testBit i := by
      rw [show (256 : ℕ) = 2 ^ 8 from rfl, ← Nat.shiftRight_eq_div_pow,
        Nat.testBit_shiftRight]
      congr 1
      omega
    rw [hlow, hhigh]
    simp [h]

/-- C6 (amended): for a calibration value `v ∈ [0,1]` whose rounded 16-bit
image does not overflow (`round(v·65536) ≤ 65535`), patching `x` stores
`round(v·65536)` split little-endian into bytes 2 and 3, and the deriver's
read of those bytes recovers `v` within 1/65536.  (The stored value is the
16-bit truncation `round(v·65536) mod 2^16`, not a clamp: without the
overflow hypothesis, `v = 1` stores 0, see the counterexample.) -/
theorem c6_xy_encoding (el : List Nat) (v : ℚ)
    (hlen : 6 ≤ el.length) (h0 : 0 ≤ v) (h1 : v ≤ 1)
    (hr : jsRound (v * 65536) ≤ 65535) :
    Ld6.channelX (Ld6.applyCal el { flux := none, x := some v, y := none })
      = (jsRound (v * 65536) : ℚ) / 65536 ∧
    |Ld6.channelX (Ld6.applyCal el { flux := none, x := some v, y := none }) - v|
      ≤ 1 / 65536 := by
  have hnn : 0 ≤ jsRound (v * 65536) := by
    rw [jsRound]
    rw [Int.floor_nonneg]
    have := mul_nonneg h0 (by norm_num : (0 : ℚ) ≤ 65536)
    linarith
  obtain ⟨n, hn⟩ := Int.eq_ofNat_of_zero_le hnn
  have hn65535 : n ≤ 65535 := by omega
  have happ : Ld6.applyCal el { flux := none, x := some v, y := none }
      = (el.set 2 ((jsRound (v * 65536)).emod 256).toNat).set 3
          (((jsRound (v * 65536)).fdiv 256).emod 256).toNat := rfl
  have hb2 : ((jsRound (v * 65536)).emod 256).toNat = n % 256 := by
    rw [hn]
    rw [show ((n : ℤ).emod (256 : ℤ)) = ((n % 256 : Nat) : ℤ) from (Int.ofNat_emod n 256).symm]
    exact Int.toNat_ofNat _
  have hdivlt : n / 256 < 256 := by omega
  have hb3 : (((jsRound (v * 65536)).fdiv 256).emod 256).toNat = n / 256 := by
    rw [hn]
    rw [show ((n : ℤ).fdiv (256 : ℤ)) = ((n / 256 : Nat) : ℤ) from (Int.ofNat_fdiv n 256).symm]
    rw [show (((n / 256 : Nat) : ℤ).emod (256 : ℤ)) = ((n / 256 % 256 : Nat) : ℤ) from
      (Int.ofNat_emod (n / 256) 256).symm]
    rw [Nat.mod_eq_of_lt hdivlt]
    exact Int.toNat_ofNat _
  have hg2 : ((el.set 2 (n % 256)).set 3 (n / 256))[2]? = some (n % 256) := by
    rw [List.getElem?_set_ne (show (3 : Nat) ≠ 2 by decide)]
    exact List.getElem?_set_self (by omega)
  have hg3 : ((el.set 2 (n % 256)).set 3 (n / 256))[3]? = some (n / 256) :=
    List.getElem?_set_self (by rw [List.length_set]; omega)
  have hm : n % 256 % 256 = n % 256 :=
    Nat.mod_eq_of_lt (Nat.mod_lt _ (by norm_num))
  have hd : n / 256 % 256 = n / 256 := Nat.mod_eq_of_lt hdivlt
  have hx : Ld6.channelX (Ld6.applyCal el { flux := none, x := some v, y := none })
      = ((n : ℚ)) / 65536 := by
    rw [happ, hb2, hb3]
    simp only [Ld6.channelX, Ld6.bufGet, List.getD_eq_getElem?_getD, hg2, hg3,
      Option.getD_some, hm, hd, lor_bytes_eq n]
  have hnq : ((n : ℚ)) = ((jsRound (v * 65536) : ℤ) : ℚ) := by
    rw [hn]
    simp
  constructor
  · rw [hx, hnq]
  · rw [hx, hnq]
    have hle : ((jsRound (v * 65536) : ℤ) : ℚ) ≤ v * 65536 + 1/2 := Int.floor_le _
    have hgt : v * 65536 + 1/2 - 1 < ((jsRound (v * 65536) : ℤ) : ℚ) := Int.sub_one_lt_floor _
    rw [abs_le]
    constructor <;> linarith

/-- C6 witness: patching `x = 0.3127` into a well-formed element and reading
it back through the deriver recovers the value within 1/65536. -/
theorem c6_xy_encoding_witness :
    |Ld6.channelX (Ld6.applyCal [0x11, 0xfe, 0x42, 0x50, 0xd9, 0x52]
        { flux := none, x := some (3127/10000), y := none }) - 3127/10000|
      ≤ 1 / 65536 :=
  (c6_xy_encoding [0x11, 0xfe, 0x42, 0x50, 0xd9, 0x52] (3127/10000)
    (by decide) (by norm_num) (by norm_num)
    (by rw [jsRound_eq_of (3127/10000 * 65536) 20493 (by norm_num) (by norm_num)]
        norm_num)).2

/-- C6 counterexample: for the boundary value `v = 1`, `round(1·65536)` is
65536, which the byte masking truncates to 0 instead of clamping to 65535;
the decoded chromaticity is 0, an error of 1, far beyond 1/65536. -/
theorem c6_counterexample :
    Ld6.channelX (Ld6.applyCal [0x11, 0xfe, 0x42, 0x50, 0xd9, 0x52]
        { flux := none, x := some 1, y := none }) = 0
    ∧ ¬ (|Ld6.channelX (Ld6.applyCal [0x11, 0xfe, 0x42, 0x50, 0xd9, 0x52]
        { flux := none, x := some 1, y := none }) - 1| ≤ 1 / 65536) := by
  have hjr : jsRound ((1 : ℚ) * 65536) = 65536 :=
    jsRound_eq_of _ _ (by norm_num) (by norm_num)
  have happ : Ld6.applyCal [0x11, 0xfe, 0x42, 0x50, 0xd9, 0x52]
      { flux := none, x := some 1, y := none } = [0x11, 0xfe, 0x00, 0x00, 0xd9, 0x52] := by
    rw [show Ld6.applyCal [0x11, 0xfe, 0x42, 0x50, 0xd9, 0x52]
          { flux := none, x := some 1, y := none }
        = ([0x11, 0xfe, 0x42, 0x50, 0xd9, 0x52].set 2
            ((jsRound ((1 : ℚ) * 65536)).emod 256).toNat).set 3
            (((jsRound ((1 : ℚ) * 65536)).fdiv 256).emod 256).toNat from rfl]
    rw [hjr]
    decide
  have hb : (Ld6.bufGet [0x11, 0xfe, 0x00, 0x00, 0xd9, 0x52] 2
      ||| (Ld6.bufGet [0x11, 0xfe, 0x00, 0x00, 0xd9, 0x52] 3 <<< 8) : Nat) = 0 := by decide
  have h : Ld6.channelX (Ld6.applyCal [0x11, 0xfe, 0x42, 0x50, 0xd9, 0x52]
      { flux := none, x := some 1, y := none }) = 0 := by
    rw [happ]
    simp only [Ld6.channelX]
    rw [hb]
    norm_num
  refine ⟨h, ?_⟩
  rw [h]
  norm_num

/-! ## C2 -/

/-- Claim-side description of the scan result: the mireds value derived from
the last channel in the configuration that is assigned to the endpoint with
the given function code (the `forEach` overwrites, so the last match wins). -/
def lastMiredsFor (configs : List (List Nat)) (epNum code : Nat) : Option ℤ :=
  (configs.reverse.find? (fun buf =>
      ((Ld6.bufGet buf 0 >>> 4) &&& 0x0F) = epNum
        ∧ (Ld6.bufGet buf 0 &&& 0x0F) = code)).map
    (fun buf => Ld6.xyToMireds (Ld6.channelX buf) (Ld6.channelY buf))

/-- The cool-white component of one scan step. -/
theorem scanStep_fst (epNum : Nat) (acc : Option ℤ × Option ℤ) (buf : List Nat) :
    (Ld6.scanStep epNum acc buf).1
      = if ((Ld6.bufGet buf 0 >>> 4) &&& 0x0F) = epNum ∧ (Ld6.bufGet buf 0 &&& 0x0F) = 1
        then some (Ld6.xyToMireds (Ld6.channelX buf) (Ld6.channelY buf))
        else acc.1 := by
  by_cases h1 : ((Ld6.bufGet buf 0 >>> 4) &&& 0x0F) = epNum
  · by_cases h2 : (Ld6.bufGet buf 0 &&& 0x0F) = 1
    · simp [Ld6.scanStep, h1, h2]
    · by_cases h3 : (Ld6.bufGet buf 0 &&& 0x0F) = 2
      · simp [Ld6.scanStep, h1, h2, h3]
      · simp [Ld6.scanStep, h1, h2, h3]
  · simp [Ld6.scanStep, h1]

/-- The warm-white component of one scan step. -/
theorem scanStep_snd (epNum : Nat) (acc : Option ℤ × Option ℤ) (buf : List Nat) :
    (Ld6.scanStep epNum acc buf).2
      = if ((Ld6.bufGet buf 0 >>> 4) &&& 0x0F) = epNum ∧ (Ld6.bufGet buf 0 &&& 0x0F) = 2
        then some (Ld6.xyToMireds (Ld6.channelX buf) (Ld6.channelY buf))
        else acc.2 := by
  by_cases h1 : ((Ld6.bufGet buf 0 >>> 4) &&& 0x0F) = epNum
  · by_cases h2 : (Ld6.bufGet buf 0 &&& 0x0F) = 1
    · by_cases h3 : (Ld6.bufGet buf 0 &&& 0x0F) = 2
      · omega
      · simp [Ld6.scanStep, h1, h2, h3]
    · by_cases h3 : (Ld6.bufGet buf 0 &&& 0x0F) = 2
      · simp [Ld6.scanStep, h1, h2, h3]
      · simp [Ld6.scanStep, h1, h2, h3]
  · simp [Ld6.scanStep, h1]

/-- Unfolding `lastMiredsFor` by one configuration element. -/
theorem lastMiredsFor_cons (c : List Nat) (cs : List (List Nat)) (epNum code : Nat) :
    lastMiredsFor (c :: cs) epNum code
      = (lastMiredsFor cs epNum code).or
          (if ((Ld6.bufGet c 0 >>> 4) &&& 0x0F) = epNum ∧ (Ld6.bufGet c 0 &&& 0x0F) = code
           then some (Ld6.xyToMireds (Ld6.channelX c) (Ld6.channelY c)) else none) := by
  rw [lastMiredsFor, lastMiredsFor]
  rw [show (c :: cs).reverse = cs.reverse ++ [c] from by simp]
  rw [List.find?_append]
  by_cases hp : ((Ld6.bufGet c 0 >>> 4) &&& 0x0F) = epNum ∧ (Ld6.bufGet c 0 &&& 0x0F) = code
  · cases hfind : cs.reverse.find? (fun buf =>
        decide (((Ld6.bufGet buf 0 >>> 4) &&& 0x0F) = epNum
          ∧ (Ld6.bufGet buf 0 &&& 0x0F) = code)) with
    | none => simp [hfind, hp, List.find?]
    | some b => simp [hfind, hp]
  · cases hfind : cs.reverse.find? (fun buf =>
        decide (((Ld6.bufGet buf 0 >>> 4) &&& 0x0F) = epNum
          ∧ (Ld6.bufGet buf 0 &&& 0x0F) = code)) with
    | none => simp [hfind, hp, List.find?]
    | some b => simp [hfind, hp]

/-- The channel scan computes exactly the last matching cool-white and
warm-white mireds for the endpoint. -/
theorem foldl_scan (epNum : Nat) :
    ∀ (configs : List (List Nat)) (acc : Option ℤ × Option ℤ),
      configs.foldl (Ld6.scanStep epNum) acc
        = ((lastMiredsFor configs epNum 1).or acc.1,
           (lastMiredsFor configs epNum 2).or acc.2) := by
  intro configs
  induction configs with
  | nil => intro acc; simp [lastMiredsFor]
  | cons c cs ih =>
    intro acc
    rw [List.foldl_cons, ih, lastMiredsFor_cons, lastMiredsFor_cons]
    rw [scanStep_fst, scanStep_snd]
    simp only [Prod.mk.injEq]
    constructor
    · cases lastMiredsFor cs epNum 1 with
      | none =>
        simp only [Option.none_or]
        by_cases hp : ((Ld6.bufGet c 0 >>> 4) &&& 0x0F) = epNum
            ∧ (Ld6.bufGet c 0 &&& 0x0F) = 1
        · simp [hp]
        · simp [hp]
      | some b => simp
    · cases lastMiredsFor cs epNum 2 with
      | none =>
        simp only [Option.none_or]
        by_cases hp : ((Ld6.bufGet c 0 >>> 4) &&& 0x0F) = epNum
            ∧ (Ld6.bufGet c 0 &&& 0x0F) = 2
        · simp [hp]
        · simp [hp]
      | some b => simp

/-- C2 (amended): for every decoded configuration and target endpoint, the
derived color-temperature range is `[min, max]` of the cool-white and
warm-white mireds of the last matching channels whenever both exist and both
are nonzero (JS truthiness of `cwMireds && wwMireds`); in every other case
it is exactly the default `[153, 500]` (not `[153, 555]`, and mireds values
are used even when negative, so "finite positive" does not govern the
branch). -/
theorem c2_derive_range (configs : List (List Nat)) (epNum : Nat) :
    Ld6.deriveCctRange configs epNum
      = match lastMiredsFor configs epNum 1, lastMiredsFor configs epNum 2 with
        | some cw, some ww =>
            if cw ≠ 0 ∧ ww ≠ 0 then (min cw ww, max cw ww) else (153, 500)
        | _, _ => (153, 500) := by
  rw [Ld6.deriveCctRange, foldl_scan]
  cases lastMiredsFor configs epNum 1 with
  | none => cases lastMiredsFor configs epNum 2 with
    | none => rfl
    | some ww => rfl
  | some cw => cases lastMiredsFor configs epNum 2 with
    | none => rfl
    | some ww => rfl

/-- The deriver's x read of the tweaked cool-white element. -/
theorem channelX_row1 : Ld6.channelX [0x11, 0xfe, 0x00, 0x80, 0xe0, 0x33] = 32768 / 65536 := by
  have hb : (Ld6.bufGet [0x11, 0xfe, 0x00, 0x80, 0xe0, 0x33] 2
      ||| (Ld6.bufGet [0x11, 0xfe, 0x00, 0x80, 0xe0, 0x33] 3 <<< 8) : Nat) = 32768 := by decide
  simp only [Ld6.channelX]
  rw [hb]
  norm_num

/-- The deriver's y read of the tweaked cool-white element. -/
theorem channelY_row1 : Ld6.channelY [0x11, 0xfe, 0x00, 0x80, 0xe0, 0x33] = 13280 / 65536 := by
  have hb : (Ld6.bufGet [0x11, 0xfe, 0x00, 0x80, 0xe0, 0x33] 4
      ||| (Ld6.bufGet [0x11, 0xfe, 0x00, 0x80, 0xe0, 0x33] 5 <<< 8) : Nat) = 13280 := by decide
  simp only [Ld6.channelY]
  rw [hb]
  norm_num

/-- The deriver's x read of the canonical warm-white element. -/
theorem channelX_row2 : Ld6.channelX [0x12, 0xfe, 0xb9, 0x75, 0x1d, 0x69] = 30137 / 65536 := by
  have hb : (Ld6.bufGet [0x12, 0xfe, 0xb9, 0x75, 0x1d, 0x69] 2
      ||| (Ld6.bufGet [0x12, 0xfe, 0xb9, 0x75, 0x1d, 0x69] 3 <<< 8) : Nat) = 30137 := by decide
  simp only [Ld6.channelX]
  rw [hb]
  norm_num

/-- The deriver's y read of the canonical warm-white element. -/
theorem channelY_row2 : Ld6.channelY [0x12, 0xfe, 0xb9, 0x75, 0x1d, 0x69] = 26909 / 65536 := by
  have hb : (Ld6.bufGet [0x12, 0xfe, 0xb9, 0x75, 0x1d, 0x69] 4
      ||| (Ld6.bufGet [0x12, 0xfe, 0xb9, 0x75, 0x1d, 0x69] 5 <<< 8) : Nat) = 26909 := by decide
  simp only [Ld6.channelY]
  rw [hb]
  norm_num

/-- McCamy through the tweaked cool-white chromaticity (x = 0.5,
y ≈ 0.2026) yields a negative CCT, hence mireds -6. -/
theorem mireds_row1 :
    Ld6.xyToMireds (Ld6.channelX [0x11, 0xfe, 0x00, 0x80, 0xe0, 0x33])
      (Ld6.channelY [0x11, 0xfe, 0x00, 0x80, 0xe0, 0x33]) = -6 := by
  rw [channelX_row1, channelY_row1]
  simp only [Ld6.xyToMireds]
  apply jsRound_eq_of
  · norm_num
  · norm_num

/-- McCamy through the canonical warm-white chromaticity yields 371 mireds. -/
theorem mireds_row2 :
    Ld6.xyToMireds (Ld6.channelX [0x12, 0xfe, 0xb9, 0x75, 0x1d, 0x69])
      (Ld6.channelY [0x12, 0xfe, 0xb9, 0x75, 0x1d, 0x69]) = 371 := by
  rw [channelX_row2, channelY_row2]
  simp only [Ld6.xyToMireds]
  apply jsRound_eq_of
  · norm_num
  · norm_num

/-- Scanning the tweaked cool-white element records mireds -6. -/
theorem scan_row1 :
    Ld6.scanStep 1 (none, none) [0x11, 0xfe, 0x00, 0x80, 0xe0, 0x33]
      = (some (-6), none) := by
  have h1 := scanStep_fst 1 (none, none) [0x11, 0xfe, 0x00, 0x80, 0xe0, 0x33]
  have h2 := scanStep_snd 1 (none, none) [0x11, 0xfe, 0x00, 0x80, 0xe0, 0x33]
  rw [if_pos ⟨by decide, by decide⟩, mireds_row1] at h1
  rw [if_neg (by decide)] at h2
  exact Prod.ext h1 h2

/-- Scanning the warm-white element afterwards records mireds 371. -/
theorem scan_row2 :
    Ld6.scanStep 1 (some (-6), none) [0x12, 0xfe, 0xb9, 0x75, 0x1d, 0x69]
      = (some (-6), some 371) := by
  have h1 := scanStep_fst 1 (some (-6), none) [0x12, 0xfe, 0xb9, 0x75, 0x1d, 0x69]
  have h2 := scanStep_snd 1 (some (-6), none) [0x12, 0xfe, 0xb9, 0x75, 0x1d, 0x69]
  rw [if_neg (by decide)] at h1
  rw [if_pos ⟨by decide, by decide⟩, mireds_row2] at h2
  exact Prod.ext h1 h2

/-- C2 counterexample: (a) a configuration with no cool/warm pair on the
endpoint (canonical `1x_dimmable`) derives the default `(153, 500)`, not the
claimed `[153, 555]`; (b) a configuration whose cool-white chromaticity puts
McCamy outside its validity range produces the negative, JS-truthy mireds
value -6, and the code still takes the min/max branch, deriving `(-6, 371)`
where the claim requires the default. -/
theorem c2_counterexample :
    Ld6.deriveCctRange
        [[0x10, 0xff, 0xff, 0xff, 0xff, 0xff], [0x00, 0xff, 0xff, 0xff, 0xff, 0xff],
         [0x00, 0xff, 0xff, 0xff, 0xff, 0xff], [0x00, 0xff, 0xff, 0xff, 0xff, 0xff],
         [0x00, 0xff, 0xff, 0xff, 0xff, 0xff], [0x00, 0xff, 0xff, 0xff, 0xff, 0xff]] 1
      = (153, 500)
    ∧ Ld6.deriveCctRange
        [[0x10, 0xff, 0xff, 0xff, 0xff, 0xff], [0x00, 0xff, 0xff, 0xff, 0xff, 0xff],
         [0x00, 0xff, 0xff, 0xff, 0xff, 0xff], [0x00, 0xff, 0xff, 0xff, 0xff, 0xff],
         [0x00, 0xff, 0xff, 0xff, 0xff, 0xff], [0x00, 0xff, 0xff, 0xff, 0xff, 0xff]] 1
      ≠ (153, 555)
    ∧ Ld6.deriveCctRange [[0x11, 0xfe, 0x00, 0x80, 0xe0, 0x33],
        [0x12, 0xfe, 0xb9, 0x75, 0x1d, 0x69]] 1 = (-6, 371) := by
  refine ⟨by decide, by decide, ?_⟩
  simp only [Ld6.deriveCctRange, List.foldl_cons, List.foldl_nil, scan_row1, scan_row2]
  decide

/-! ## C10 -/

/-- The mask built by the `bitMapping.forEach` loop, abstracted over the five
per-key boolean values in loop order. -/
def maskOf (v0 v1 v2 v3 v4 : Bool) : Nat :=
  let m1 := if v0 then 0 ||| (1 <<< 0) else 0
  let m2 := if v1 then m1 ||| (1 <<< 1) else m1
  let m3 := if v2 then m2 ||| (1 <<< 2) else m2
  let m4 := if v3 then m3 ||| (1 <<< 3) else m3
  if v4 then m4 ||| (1 <<< 4) else m4

/-- `resolveAdvancedOptions` over the concrete five-key `bitMapping` is the
mask of the five per-key values (new value for the key being set, stored
state or `false` for the rest). -/
theorem resolve_eq_maskOf (state : String → Option Bool) (key : String) (value : Bool) :
    Ld6.resolveAdvancedOptions state key value Ld6.ADVANCED_BIT_MAPPING
      = maskOf
          (if key = "advanced_options_no_color_white" then value
           else (state "advanced_options_no_color_white").getD false)
          (if key = "advanced_options_no_first_white_color" then value
           else (state "advanced_options_no_first_white_color").getD false)
          (if key = "advanced_options_no_second_white_color" then value
           else (state "advanced_options_no_second_white_color").getD false)
          (if key = "advanced_options_ignore_color_temp_range" then value
           else (state "advanced_options_ignore_color_temp_range").getD false)
          (if key = "advanced_options_constant_luminous_flux" then value
           else (state "advanced_options_constant_luminous_flux").getD false) := rfl

/-- Each bit of the mask is exactly the corresponding input value. -/
theorem maskOf_testBit5 : ∀ (v0 v1 v2 v3 v4 : Bool),
    Nat.testBit (maskOf v0 v1 v2 v3 v4) 0 = v0 ∧
    Nat.testBit (maskOf v0 v1 v2 v3 v4) 1 = v1 ∧
    Nat.testBit (maskOf v0 v1 v2 v3 v4) 2 = v2 ∧
    Nat.testBit (maskOf v0 v1 v2 v3 v4) 3 = v3 ∧
    Nat.testBit (maskOf v0 v1 v2 v3 v4) 4 = v4 := by
  decide

/-- C10: setting flag `j` computes the written bitmask by read-modify-write:
bit `j` of the mask is the new value, and bit `i` of the mask for any other
flag `i` is that flag's current state value, `false` when absent — so setting
one flag never alters the other flags' bits. -/
theorem c10_advanced_options (state : String → Option Bool) (value : Bool)
    (j i : Nat) (hj : j < 5) (hi : i < 5) :
    Nat.testBit
      (Ld6.resolveAdvancedOptions state (Ld6.ADVANCED_BIT_MAPPING.getD j "") value
        Ld6.ADVANCED_BIT_MAPPING) i
      = if i = j then value
        else (state (Ld6.ADVANCED_BIT_MAPPING.getD i "")).getD false := by
  interval_cases j <;> interval_cases i <;>
    (rw [resolve_eq_maskOf]
     simp only [maskOf_testBit5]
     simp [Ld6.ADVANCED_BIT_MAPPING])

/-- C10 witness: setting the first flag to true on an empty state leaves the
second flag's bit false. -/
theorem c10_advanced_options_witness :
    Nat.testBit
      (Ld6.resolveAdvancedOptions (fun _ => none) (Ld6.ADVANCED_BIT_MAPPING.getD 0 "") true
        Ld6.ADVANCED_BIT_MAPPING) 1
      = if 1 = 0 then true
        else ((fun _ : String => (none : Option Bool))
            (Ld6.ADVANCED_BIT_MAPPING.getD 1 "")).getD false :=
  c10_advanced_options (fun _ => none) true 0 1 (by decide) (by decide)
